import Mathlib

/-!
Verification development for the openhome-tools scripts.

Shallow embedding of:
- songcast_group.py   (candidate resolution, grouped heuristic, receiver join)
- tests/songcast_monitor.py (StateAssertion, DeviceMonitor event processing)
- lpec_utils.py       (query_receiver_state buffer parsing)

Strings are modelled as Lean `String`, Python `None`/falsy-string values as
`Option String` (with the explicit empty-string normalisations the code's
truthiness tests perform), wall-clock times as `Nat` ticks, and network I/O
as oracle functions / `Option`-valued inputs (a `none` input models a
connection failure or a raised-and-caught exception at that call site).
-/

/-- Whitespace characters of Python's `str.strip` and of the regex class
`\s` (ASCII range, which is all the event protocol uses). -/
def is_space_char (c : Char) : Bool :=
  c = ' ' || c = '\t' || c = '\n' || c = '\r' || c = '\x0b' || c = '\x0c'

/-- Python `str.lower()` restricted to its ASCII behaviour (all schemes and
transport states in the scripts are ASCII). -/
def py_lower (s : String) : String :=
  String.mk (s.data.map Char.toLower)

/-- Strip leading and trailing whitespace from a character list. -/
def strip_chars (cs : List Char) : List Char :=
  ((cs.dropWhile is_space_char).reverse.dropWhile is_space_char).reverse

/-- Python `str.strip()` with no argument. -/
def py_strip (s : String) : String :=
  String.mk (strip_chars s.data)

/-- Helper for `py_splitlines`: split on \r\n, \n, \r, \x0b, \x0c boundaries
(the line boundaries that can occur in the ASCII event streams). -/
def splitlines_chars : List Char → List Char → List (List Char)
  | [], acc => if acc.isEmpty then [] else [acc.reverse]
  | '\r' :: '\n' :: rest, acc => acc.reverse :: splitlines_chars rest []
  | c :: rest, acc =>
    if c = '\n' || c = '\r' || c = '\x0b' || c = '\x0c' then
      acc.reverse :: splitlines_chars rest []
    else
      splitlines_chars rest (c :: acc)

/-- Python `str.splitlines()` (ASCII boundaries; no trailing empty element). -/
def py_splitlines (s : String) : List String :=
  (splitlines_chars s.data []).map String.mk

/-- Python `str.startswith(p)`. -/
def starts_with (p s : String) : Bool :=
  p.data.isPrefixOf s.data

/-- If `name` is literally at the head of `cs`, return the remainder. -/
def drop_exact : List Char → List Char → Option (List Char)
  | [], cs => some cs
  | _ :: _, [] => none
  | n :: ns, c :: cs => if c = n then drop_exact ns cs else none

/-- Attempt to match the regex fragment `NAME\s+"([^"]*)"` exactly at the head
of `cs`, returning the captured group. Mirrors how the pattern behaves at one
search position: the literal name, at least one whitespace character, an
opening quote, a quote-free body, a closing quote. -/
def match_var_here (name : List Char) (cs : List Char) : Option (List Char) :=
  match drop_exact name cs with
  | none => none
  | some rest =>
    let ws := rest.takeWhile is_space_char
    if ws.isEmpty then none
    else
      match rest.drop ws.length with
      | '"' :: more =>
        let body := more.takeWhile (fun c => c ≠ '"')
        match more.drop body.length with
        | '"' :: _ => some body
        | _ => none
      | _ => none

/-- Leftmost match of `NAME\s+"([^"]*)"` in `cs` (what `re.search` returns). -/
def find_var (name : List Char) : List Char → Option (List Char)
  | [] => match_var_here name []
  | c :: cs =>
    match match_var_here name (c :: cs) with
    | some r => some r
    | none => find_var name cs

/-- Embedding of `re.search(r'NAME\s+"([^"]*)"', s)` returning group 1, as used
for the four recognised variables in songcast_monitor.py and lpec_utils.py. -/
def capture_var (name s : String) : Option String :=
  (find_var name.data s.data).map String.mk

/-- Embedding of `re.match(r'^EVENT\s+(\d+)\s+(.+)$', line)` for the
newline-free lines the monitor produces (its read loop splits the stream on
newlines and strips each line before `_process_event`). Returns the sequence
group and the payload group. The final branch is the regex backtracking case:
when everything after the digits is whitespace, `\s+` gives one character back
to `(.+)`. -/
def parse_event_line (line : String) : Option (String × String) :=
  match drop_exact "EVENT".data line.data with
  | none => none
  | some r1 =>
    let ws1 := r1.takeWhile is_space_char
    if ws1.isEmpty then none
    else
      let r2 := r1.drop ws1.length
      let ds := r2.takeWhile Char.isDigit
      if ds.isEmpty then none
      else
        let r3 := r2.drop ds.length
        let ws2 := r3.takeWhile is_space_char
        if ws2.isEmpty then none
        else
          let r4 := r3.drop ws2.length
          if r4.isEmpty then
            if 2 ≤ ws2.length then
              some (String.mk ds, String.mk (ws2.drop (ws2.length - 1)))
            else none
          else some (String.mk ds, String.mk r4)

/-- Per-device state snapshot (`self.state` in DeviceMonitor, `state` in
lpec_utils.query_receiver_state): the four recognised variables, `none` when
the key is absent from the dict. -/
structure Snapshot where
  TransportState : Option String := none
  Sender : Option String := none
  Status : Option String := none
  ProtocolInfo : Option String := none
deriving DecidableEq

/-- One change notification as assembled in `DeviceMonitor._process_event`:
the event sequence group, the variable name, old snapshot value, new value. -/
structure ChangeNote where
  seq : String
  var : String
  oldValue : Option String
  newValue : String
deriving DecidableEq

/-- The fixed set of recognised variable names. -/
def recognized_vars : List String :=
  ["TransportState", "Sender", "Status", "ProtocolInfo"]

/-- Read a snapshot field by variable name (`self.state.get(var)`). -/
def snapget (st : Snapshot) (name : String) : Option String :=
  if name = "TransportState" then st.TransportState
  else if name = "Sender" then st.Sender
  else if name = "Status" then st.Status
  else if name = "ProtocolInfo" then st.ProtocolInfo
  else none

/-- One recognised-variable step of `_process_event`: search the payload for
the variable, and if the captured value differs from the snapshot value record
exactly one change and the updated value, else keep the old value. -/
def step_var (seq name : String) (old : Option String) (rest : String) :
    Option String × List ChangeNote :=
  match capture_var name rest with
  | none => (old, [])
  | some nv =>
    if old = some nv then (old, [])
    else (some nv, [{ seq := seq, var := name, oldValue := old, newValue := nv }])

/-- Embedding of `DeviceMonitor._process_event` (songcast_monitor.py
lines 312-386): parse the EVENT header, then diff each of the four recognised
variables against the snapshot, returning the updated snapshot and the change
notifications in the order the code's `changes` dict holds them. -/
def process_event (st : Snapshot) (line : String) : Snapshot × List ChangeNote :=
  match parse_event_line line with
  | none => (st, [])
  | some (seq, rest) =>
    let ts := step_var seq "TransportState" st.TransportState rest
    let sd := step_var seq "Sender" st.Sender rest
    let su := step_var seq "Status" st.Status rest
    let pi := step_var seq "ProtocolInfo" st.ProtocolInfo rest
    ({ TransportState := ts.1, Sender := sd.1, Status := su.1, ProtocolInfo := pi.1 },
      ts.2 ++ sd.2 ++ su.2 ++ pi.2)

/-- The change notifications for one variable name (used to count how many
notifications one processed line emits for that variable). -/
def changes_for (name : String) (chs : List ChangeNote) : List ChangeNote :=
  chs.filter (fun c => c.var == name)

/-- Embedding of `StateAssertion` (songcast_monitor.py lines 52-100). Times
are `Nat` ticks; `within_seconds` is the deadline window in the same unit. -/
structure StateAssertion where
  device_id : String
  var : String
  expected_value : String
  within_seconds : Nat
  start_time : Option Nat := none
  met : Bool := false
  met_time : Option Nat := none
  actual_value : Option String := none
deriving DecidableEq

/-- `StateAssertion.start`: record the timer start. -/
def StateAssertion.start (a : StateAssertion) (now : Nat) : StateAssertion :=
  { a with start_time := some now }

/-- Embedding of `StateAssertion.check(device_id, variable, value)`: a no-op
returning False once met; otherwise met becomes true exactly when the triple
matches. `now` is the current time recorded as `met_time`. Note the deadline
is not consulted. -/
def StateAssertion.check (a : StateAssertion) (now : Nat)
    (device_id v value : String) : StateAssertion × Bool :=
  if a.met then (a, false)
  else if device_id = a.device_id ∧ v = a.var ∧ value = a.expected_value then
    ({ a with met := true, met_time := some now, actual_value := some value }, true)
  else (a, false)

/-- Embedding of `StateAssertion.is_expired`: false when never started or
already met, else whether the elapsed time exceeds the window. This is
computed on demand, never stored. -/
def StateAssertion.is_expired (a : StateAssertion) (now : Nat) : Bool :=
  match a.start_time with
  | none => false
  | some s => if a.met then false else decide (a.within_seconds < now - s)

/-- The assertion-checking pass `_process_event` runs over one line's change
notifications: `assertion.check(self.device_id, var, new)` for each change in
order. Checks touch no other assertion, so each list element evolves
independently. -/
def apply_changes_assertion (device_id : String) (now : Nat)
    (chs : List ChangeNote) (a : StateAssertion) : StateAssertion :=
  chs.foldl (fun a c => (StateAssertion.check a now device_id c.var c.newValue).1) a

/-- One monitor loop iteration: process the line, then run every assertion
over the emitted changes. -/
def process_event_step (device_id : String) (now : Nat) (st : Snapshot)
    (asl : List StateAssertion) (line : String) : Snapshot × List StateAssertion :=
  let r := process_event st line
  (r.1, asl.map (apply_changes_assertion device_id now r.2))

/-- The monitor's listen loop over a finite stream of (time, line) events,
starting from the snapshot seeded by the initial subscription response. The
initial seeding itself runs no assertion checks (see `parse_event_buffer`). -/
def run_monitor (device_id : String) :
    Snapshot → List StateAssertion → List (Nat × String) → Snapshot × List StateAssertion
  | st, asl, [] => (st, asl)
  | st, asl, (now, line) :: evs =>
    let r := process_event_step device_id now st asl line
    run_monitor device_id r.1 r.2 evs

/-- The trajectory of a single assertion through the monitor loop (each
`StateAssertion.check` reads and writes only its own assertion, so the loop
acts on list elements independently; `run_monitor_map` proves this). -/
def run_assertion (device_id : String) :
    Snapshot → StateAssertion → List (Nat × String) → StateAssertion
  | _, a, [] => a
  | st, a, (now, line) :: evs =>
    let r := process_event st line
    run_assertion device_id r.1 (apply_changes_assertion device_id now r.2 a) evs

/-- One line of `_parse_initial_event` / the lpec_utils EVENT-0 parse: assign
each recognised variable present in the line (unconditionally, no diffing). -/
def seed_snapshot (st : Snapshot) (line : String) : Snapshot :=
  { TransportState :=
      match capture_var "TransportState" line with
      | some v => some v
      | none => st.TransportState
    Sender :=
      match capture_var "Sender" line with
      | some v => some v
      | none => st.Sender
    Status :=
      match capture_var "Status" line with
      | some v => some v
      | none => st.Status
    ProtocolInfo :=
      match capture_var "ProtocolInfo" line with
      | some v => some v
      | none => st.ProtocolInfo }

/-- Embedding of the buffer parse shared by `DeviceMonitor._parse_initial_event`
(songcast_monitor.py lines 210-244) and `query_receiver_state`
(lpec_utils.py lines 89-113): split the buffer into lines, strip each, and
seed the state from every line starting with "EVENT". No assertion is ever
consulted here. -/
def parse_event_buffer (buffer : String) : Snapshot :=
  (py_splitlines buffer).foldl
    (fun st l =>
      let l2 := py_strip l
      if starts_with "EVENT" l2 then seed_snapshot st l2 else st)
    {}

/-- Embedding of `query_receiver_state` (lpec_utils.py lines 24-120). The
network phase is abstracted as `net`: `none` models a connection, timeout or
other caught exception (every `except` branch returns None), `some buffer`
the bytes read before the socket was closed. The parse phase then returns the
state dict only if it is non-empty (`return state if state else None`). -/
def query_receiver_state (net : Option String) : Option Snapshot :=
  match net with
  | none => none
  | some buffer =>
    let st := parse_event_buffer buffer
    if st = ({} : Snapshot) then none else some st

/-- The well-known synthesized default direct-multicast candidate
(`f"ohz://239.255.255.250:51972/{leader_udn}"`). -/
def default_ohz (leader_udn : String) : String :=
  "ohz://239.255.255.250:51972/" ++ leader_udn

/-- Uppercase hex digit, as `urllib.parse.quote` emits. -/
def hex_digit (n : Nat) : Char :=
  if n < 10 then Char.ofNat (48 + n) else Char.ofNat (55 + n)

/-- UTF-8 bytes of one character (as Nat values), for percent-encoding. -/
def utf8_bytes_char (c : Char) : List Nat :=
  let n := c.toNat
  if n < 128 then [n]
  else if n < 2048 then [192 + n / 64, 128 + n % 64]
  else if n < 65536 then [224 + n / 4096, 128 + (n / 64) % 64, 128 + n % 64]
  else [240 + n / 262144, 128 + (n / 4096) % 64, 128 + (n / 64) % 64, 128 + n % 64]

/-- UTF-8 byte sequence of a string. -/
def utf8_bytes (s : String) : List Nat :=
  s.data.foldr (fun c acc => utf8_bytes_char c ++ acc) []

/-- `urllib.parse.quote_plus` over one byte: unreserved bytes pass through,
space becomes '+', everything else becomes %XX. -/
def quote_plus_byte (b : Nat) : List Char :=
  if (48 ≤ b ∧ b ≤ 57) ∨ (65 ≤ b ∧ b ≤ 90) ∨ (97 ≤ b ∧ b ≤ 122)
      ∨ b = 95 ∨ b = 46 ∨ b = 45 ∨ b = 126 then [Char.ofNat b]
  else if b = 32 then ['+']
  else ['%', hex_digit (b / 16), hex_digit (b % 16)]

/-- `urllib.parse.quote_plus` of a string. -/
def quote_plus (s : String) : String :=
  String.mk ((utf8_bytes s).foldr (fun b acc => quote_plus_byte b ++ acc) [])

/-- Embedding of `_build_sender_uri` (songcast_group.py lines 230-238): an
ohSongcast descriptor URI with the truthy room/name parameters urlencoded in
insertion order (room first). -/
def build_sender_uri (leader_udn : String) (leader_name leader_room : Option String) : String :=
  let ps :=
    (match leader_room with
      | some r => if r = "" then [] else [("room", r)]
      | none => []) ++
    (match leader_name with
      | some n => if n = "" then [] else [("name", n)]
      | none => [])
  let q :=
    if ps.isEmpty then ""
    else "?" ++ String.intercalate "&" (ps.map (fun p => p.1 ++ "=" ++ quote_plus p.2))
  "ohSongcast://" ++ leader_udn ++ q

/-- Embedding of the candidate-list construction in `_receiver_join`
(songcast_group.py lines 277-343). `sender_uri` is the Uri reported by the
leader's own Sender service (`none` models a failed query; an empty string is
falsy and normalised away exactly as `if uri:` / `if not uri:` do).
`ohz_uri` is the result of the Receiver.Senders discovery loop (`none` when
all six attempts yielded nothing). Note the code appends the sender's
self-reported uri once at line 288 and again, unconditionally, at line 294,
and *inserts at the front* either the discovered ohz uri or (only when there
was none and the leader udn is truthy) the synthesized default. -/
def resolve_candidates (sender_uri : Option String) (leader_udn : String)
    (leader_name leader_room : Option String) (ohz_uri : Option String) : List String :=
  let su := match sender_uri with
    | some u => if u = "" then none else some u
    | none => none
  let oz := match ohz_uri with
    | some o => if o = "" then none else some o
    | none => none
  let base := match su with
    | some u => [u, u]
    | none => [build_sender_uri leader_udn leader_name leader_room]
  match oz with
  | some o => o :: base
  | none => if leader_udn = "" then base else default_ohz leader_udn :: base

/-- Embedding of `_is_grouped` (songcast_group.py lines 240-260) on its
success path, as a pure function of the receiver's current sender-reference
URI scheme and transport state: true when the (lowercased) scheme is "ohz",
else true exactly when the (lowercased) transport state is playing, buffering
or connecting. -/
def is_grouped (scheme transportState : String) : Bool :=
  if py_lower scheme = "ohz" then true
  else decide (py_lower transportState ∈ (["playing", "buffering", "connecting"] : List String))

/-- Outcome of one convergence poll inside the candidate loop: the raw
TransportState read together with the `_is_grouped` re-computation, or `err`
when the poll raised (which breaks out of the poll loop). -/
inductive PollResult where
  | ok (transportState : String) (grouped : Bool)
  | err
deriving DecidableEq

/-- The acceptance test at songcast_group.py line 403: the grouped heuristic
fired, or the candidate is an ohz uri and the (already lowercased) transport
state is active. -/
def accept_poll (cand state : String) (grouped : Bool) : Bool :=
  grouped ||
    (starts_with "ohz://" (py_lower cand) &&
      decide (state ∈ (["playing", "buffering", "connecting"] : List String)))

/-- Embedding of the per-candidate poll loop (`for _ in range(8)` at
songcast_group.py lines 395-408): at most `fuel` polls (8 in the source),
`oracle i` the device's answer to poll number `i`. Returns whether the
candidate was accepted and how many polls were made. -/
def poll_candidate (oracle : Nat → PollResult) (cand : String) : Nat → Nat → Bool × Nat
  | _, 0 => (false, 0)
  | i, fuel + 1 =>
    match oracle i with
    | .err => (false, 1)
    | .ok raw grouped =>
      let state := py_lower raw
      if accept_poll cand state grouped then (true, 1)
      else
        let r := poll_candidate oracle cand (i + 1) fuel
        (r.1, r.2 + 1)

/-- Embedding of the candidate loop (songcast_group.py lines 347-412): try
candidates in order, poll each with 8 attempts, stop at the first accepted.
Returns the accepted candidate (the loop's `ok`/`uri` pair), the total number
of polls made, and the list of candidates actually tried. -/
def try_candidates (oracle : String → Nat → PollResult) :
    List String → Option String × Nat × List String
  | [] => (none, 0, [])
  | c :: rest =>
    let p := poll_candidate (oracle c) c 0 8
    if p.1 then (some c, p.2, [c])
    else
      let r := try_candidates oracle rest
      (r.1, p.2 + r.2.1, c :: r.2.2)

/-- Externally visible actions of `_receiver_join`, at the granularity the
claims need: one application per tried candidate, plus the final low-level
SOAP application of the synthesized default. -/
inductive JoinAction where
  | tryCandidate (uri : String)
  | soapFallback (uri : String)
deriving DecidableEq

/-- The result of `_receiver_join`: the returned boolean, the candidate-loop
acceptance (`ok`), the number of convergence polls, and the action trace. -/
structure JoinOutcome where
  joined : Bool
  accepted : Option String
  polls : Nat
  actions : List JoinAction
deriving DecidableEq

/-- Embedding of `_receiver_join` (songcast_group.py lines 262-447).
`recv_available` is whether the follower's Receiver service resolved (line
264-266: `return False` when it is None); every other failure inside the body
is caught locally. The SOAP fallback block at lines 420-443 runs
unconditionally after the candidate loop; `fallback_ok` is the outcome of its
two HTTP posts, which the code swallows (`except: pass`), so it is ignored
here too. The function returns True at line 444 regardless of `ok`. -/
def receiver_join (recv_available : Bool) (sender_uri : Option String)
    (leader_udn : String) (leader_name leader_room : Option String)
    (ohz_uri : Option String) (oracle : String → Nat → PollResult)
    (fallback_ok : Bool) : JoinOutcome :=
  if recv_available then
    let cands := resolve_candidates sender_uri leader_udn leader_name leader_room ohz_uri
    let r := try_candidates oracle cands
    { joined := true
      accepted := r.1
      polls := r.2.1
      actions := r.2.2.map JoinAction.tryCandidate ++
        [JoinAction.soapFallback (default_ohz leader_udn)] }
  else
    { joined := false, accepted := none, polls := 0, actions := [] }

/-- Per-follower verdict logic of `create_songcast_group_async`
(songcast_group.py lines 508-519): the running `all_ok` flag is updated only
from the `_is_grouped` verification; the `joined` value returned by
`_receiver_join` merely selects a log message. -/
def follower_verdict (all_ok : Bool) (joined : Bool) (grouped : Bool) : Bool :=
  all_ok && grouped

/-- Holds when one event line cannot disturb the snapshot value `exp` of
variable `v`: the line either fails the EVENT header match, does not report
`v`, or re-reports exactly `exp`. -/
def event_preserves (v exp : String) (line : String) : Bool :=
  match parse_event_line line with
  | none => true
  | some (_, rest) =>
    match capture_var v rest with
    | none => true
    | some x => x == exp

/-- Concrete EVENT line of the spec's round-trip example. -/
def event_line_c4 : String := "EVENT 3 TransportState \"Playing\" Status \"Yes\""

/-- A prior snapshot in which both reported values differ. -/
def snap_differ : Snapshot :=
  { TransportState := some "Stopped", Sender := none, Status := some "No", ProtocolInfo := none }

/-- A prior snapshot in which both reported values are unchanged. -/
def snap_same : Snapshot :=
  { TransportState := some "Playing", Sender := none, Status := some "Yes", ProtocolInfo := none }

/-- A started, pending assertion used by the C3 counterexample: expects
TransportState "Playing" on D2 within 5 ticks, timer started at 0. -/
def assertion_c3 : StateAssertion :=
  { device_id := "D2", var := "TransportState", expected_value := "Playing",
    within_seconds := 5, start_time := some 0 }

/-- Subscription response buffer for the C9 witness. -/
def buf_c9 : String :=
  "ALIVE Ds/Receiver 4c494e4e\r\nEVENT 0 Ds/Receiver TransportState \"Playing\" Status \"Yes\"\r\n"

/-- Assertion for the C9 witness: its expected value already holds in the
initial snapshot seeded from `buf_c9`. -/
def assertion_c9 : StateAssertion :=
  { device_id := "D2", var := "TransportState", expected_value := "Playing",
    within_seconds := 5, start_time := some 0 }

/-- Event stream for the C9 witness: one event re-reporting the unchanged
TransportState, one event changing an unrelated variable. -/
def evs_c9 : List (Nat × String) :=
  [(2, "EVENT 1 TransportState \"Playing\""), (3, "EVENT 2 Status \"No\"")]

/-! Helper lemmas shared by the claim theorems. -/

theorem changes_for_append (name : String) (l1 l2 : List ChangeNote) :
    changes_for name (l1 ++ l2) = changes_for name l1 ++ changes_for name l2 := by
  simp [changes_for, List.filter_append]

theorem changes_for_step_self (seq name : String) (old : Option String) (rest : String) :
    changes_for name (step_var seq name old rest).2 = (step_var seq name old rest).2 := by
  unfold step_var
  cases capture_var name rest with
  | none => simp [changes_for]
  | some nv =>
    by_cases h : old = some nv <;> simp [h, changes_for, List.filter]

theorem changes_for_step_other {name name2 : String} (h : name ≠ name2)
    (seq : String) (old : Option String) (rest : String) :
    changes_for name (step_var seq name2 old rest).2 = [] := by
  unfold step_var
  cases capture_var name2 rest with
  | none => simp [changes_for]
  | some nv =>
    by_cases h2 : old = some nv <;>
      simp [h2, changes_for, List.filter, Ne.symm h]

theorem process_event_eq {line seq rest : String}
    (h : parse_event_line line = some (seq, rest)) (st : Snapshot) :
    process_event st line =
      ({ TransportState := (step_var seq "TransportState" st.TransportState rest).1
         Sender := (step_var seq "Sender" st.Sender rest).1
         Status := (step_var seq "Status" st.Status rest).1
         ProtocolInfo := (step_var seq "ProtocolInfo" st.ProtocolInfo rest).1 },
        (step_var seq "TransportState" st.TransportState rest).2 ++
          (step_var seq "Sender" st.Sender rest).2 ++
          (step_var seq "Status" st.Status rest).2 ++
          (step_var seq "ProtocolInfo" st.ProtocolInfo rest).2) := by
  unfold process_event
  rw [h]

theorem process_event_field {line seq rest : String}
    (h : parse_event_line line = some (seq, rest)) (st : Snapshot)
    {name : String} (hn : name ∈ recognized_vars) :
    snapget (process_event st line).1 name =
        (step_var seq name (snapget st name) rest).1 ∧
      changes_for name (process_event st line).2 =
        (step_var seq name (snapget st name) rest).2 := by
  rw [process_event_eq h]
  simp only [recognized_vars, List.mem_cons, List.not_mem_nil, or_false] at hn
  rcases hn with rfl | rfl | rfl | rfl <;>
    refine ⟨rfl, ?_⟩ <;>
    rw [changes_for_append, changes_for_append, changes_for_append] <;>
    rw [changes_for_step_self] <;>
    simp [snapget, changes_for_step_other (by decide : ("TransportState" : String) ≠ "Sender"),
      changes_for_step_other (by decide : ("TransportState" : String) ≠ "Status"),
      changes_for_step_other (by decide : ("TransportState" : String) ≠ "ProtocolInfo"),
      changes_for_step_other (by decide : ("Sender" : String) ≠ "TransportState"),
      changes_for_step_other (by decide : ("Sender" : String) ≠ "Status"),
      changes_for_step_other (by decide : ("Sender" : String) ≠ "ProtocolInfo"),
      changes_for_step_other (by decide : ("Status" : String) ≠ "TransportState"),
      changes_for_step_other (by decide : ("Status" : String) ≠ "Sender"),
      changes_for_step_other (by decide : ("Status" : String) ≠ "ProtocolInfo"),
      changes_for_step_other (by decide : ("ProtocolInfo" : String) ≠ "TransportState"),
      changes_for_step_other (by decide : ("ProtocolInfo" : String) ≠ "Sender"),
      changes_for_step_other (by decide : ("ProtocolInfo" : String) ≠ "Status")]

theorem step_var_no_change (seq name exp rest : String)
    (h : capture_var name rest = none ∨ capture_var name rest = some exp) :
    step_var seq name (some exp) rest = (some exp, []) := by
  unfold step_var
  rcases h with h | h <;> simp [h]

theorem apply_changes_skip (d : String) (now : Nat) :
    ∀ (chs : List ChangeNote) (a : StateAssertion),
      (∀ c ∈ chs, c.var ≠ a.var) → apply_changes_assertion d now chs a = a := by
  intro chs
  induction chs with
  | nil => intro a _; rfl
  | cons c cs ih =>
    intro a h
    have hc : c.var ≠ a.var := h c (List.mem_cons_self _ _)
    have hstep : StateAssertion.check a now d c.var c.newValue = (a, false) := by
      unfold StateAssertion.check
      by_cases hm : a.met
      · simp [hm]
      · have hno : ¬(d = a.device_id ∧ c.var = a.var ∧ c.newValue = a.expected_value) := by
          rintro ⟨-, h2, -⟩; exact hc h2
        simp [hm, hno]
    unfold apply_changes_assertion
    simp only [List.foldl_cons, hstep]
    exact ih a (fun c' hc' => h c' (List.mem_cons_of_mem _ hc'))

theorem run_monitor_map (d : String) :
    ∀ (evs : List (Nat × String)) (st : Snapshot) (asl : List StateAssertion),
      (run_monitor d st asl evs).2 = asl.map (fun a => run_assertion d st a evs) := by
  intro evs
  induction evs with
  | nil => intro st asl; simp [run_monitor, run_assertion]
  | cons p evs ih =>
    intro st asl
    obtain ⟨now, line⟩ := p
    simp only [run_monitor, process_event_step]
    rw [ih]
    rw [List.map_map]
    rfl

theorem process_event_preserve {line : String} (st : Snapshot) {name exp : String}
    (hn : name ∈ recognized_vars)
    (hsnap : snapget st name = some exp)
    (hline : event_preserves name exp line = true) :
    snapget (process_event st line).1 name = some exp ∧
      ∀ c ∈ (process_event st line).2, c.var ≠ name := by
  cases hparse : parse_event_line line with
  | none =>
    have hpe : process_event st line = (st, []) := by
      unfold process_event; rw [hparse]
    rw [hpe]
    exact ⟨hsnap, by simp⟩
  | some pr =>
    obtain ⟨seq, rest⟩ := pr
    have hline2 : (match capture_var name rest with
        | none => true
        | some x => x == exp) = true := by
      unfold event_preserves at hline
      rw [hparse] at hline
      exact hline
    have hcap : capture_var name rest = none ∨ capture_var name rest = some exp := by
      cases hc : capture_var name rest with
      | none => exact Or.inl rfl
      | some x =>
        right
        rw [hc] at hline2
        simp only [beq_iff_eq] at hline2
        rw [hline2]
    have hf := process_event_field hparse st hn
    rw [hsnap] at hf
    have hstep := step_var_no_change seq name exp rest hcap
    refine ⟨?_, ?_⟩
    · rw [hf.1, hstep]
    · intro c hc hvar
      have hmem : c ∈ changes_for name (process_event st line).2 :=
        List.mem_filter.mpr ⟨hc, by simp [hvar]⟩
      rw [hf.2, hstep] at hmem
      simp at hmem

theorem run_assertion_never_met (d : String) :
    ∀ (evs : List (Nat × String)) (st : Snapshot) (a : StateAssertion),
      a.met = false →
      a.var ∈ recognized_vars →
      snapget st a.var = some a.expected_value →
      (∀ p ∈ evs, event_preserves a.var a.expected_value p.2 = true) →
      (run_assertion d st a evs).met = false := by
  intro evs
  induction evs with
  | nil =>
    intro st a hmet _ _ _
    simpa [run_assertion] using hmet
  | cons p evs ih =>
    intro st a hmet hvar hsnap hpres
    obtain ⟨now, line⟩ := p
    have hline := hpres (now, line) (List.mem_cons_self _ _)
    have hp := process_event_preserve st hvar hsnap hline
    have hskip := apply_changes_skip d now (process_event st line).2 a (fun c hc => hp.2 c hc)
    simp only [run_assertion]
    rw [hskip]
    exact ih (process_event st line).1 a hmet hvar hp.1
      (fun q hq => hpres q (List.mem_cons_of_mem _ hq))

theorem poll_candidate_err {oracle : Nat → PollResult} {i : Nat}
    (cand : String) (n : Nat) (h : oracle i = PollResult.err) :
    poll_candidate oracle cand i (n + 1) = (false, 1) := by
  simp [poll_candidate, h]

theorem poll_candidate_ok {oracle : Nat → PollResult} {i : Nat} {raw : String}
    {grouped : Bool} (cand : String) (n : Nat)
    (h : oracle i = PollResult.ok raw grouped) :
    poll_candidate oracle cand i (n + 1) =
      (if accept_poll cand (py_lower raw) grouped then (true, 1)
       else ((poll_candidate oracle cand (i + 1) n).1,
             (poll_candidate oracle cand (i + 1) n).2 + 1)) := by
  simp [poll_candidate, h]

theorem poll_candidate_le (oracle : Nat → PollResult) (cand : String) :
    ∀ (fuel i : Nat), (poll_candidate oracle cand i fuel).2 ≤ fuel := by
  intro fuel
  induction fuel with
  | zero => intro i; simp [poll_candidate]
  | succ n ih =>
    intro i
    cases h : oracle i with
    | err => simp [poll_candidate_err cand n h]
    | ok raw grouped =>
      rw [poll_candidate_ok cand n h]
      have hrec := ih (i + 1)
      by_cases ha : accept_poll cand (py_lower raw) grouped = true
      · simp [ha]
      · simp only [Bool.not_eq_true] at ha
        simp [ha] <;> omega

theorem try_candidates_cons_acc {oracle : String → Nat → PollResult} {c : String}
    (rest : List String) (h : (poll_candidate (oracle c) c 0 8).1 = true) :
    try_candidates oracle (c :: rest) =
      (some c, (poll_candidate (oracle c) c 0 8).2, [c]) := by
  simp [try_candidates, h]

theorem try_candidates_cons_rej {oracle : String → Nat → PollResult} {c : String}
    (rest : List String) (h : (poll_candidate (oracle c) c 0 8).1 = false) :
    try_candidates oracle (c :: rest) =
      ((try_candidates oracle rest).1,
       (poll_candidate (oracle c) c 0 8).2 + (try_candidates oracle rest).2.1,
       c :: (try_candidates oracle rest).2.2) := by
  simp [try_candidates, h]

theorem try_candidates_le (oracle : String → Nat → PollResult) :
    ∀ cands : List String, (try_candidates oracle cands).2.1 ≤ 8 * cands.length := by
  intro cands
  induction cands with
  | nil => simp [try_candidates]
  | cons c rest ih =>
    have h8 := poll_candidate_le (oracle c) c 8 0
    by_cases h : (poll_candidate (oracle c) c 0 8).1 = true
    · rw [try_candidates_cons_acc rest h]
      simp only [List.length_cons]
      omega
    · simp only [Bool.not_eq_true] at h
      rw [try_candidates_cons_rej rest h]
      simp only [List.length_cons]
      omega

theorem getLast_append_single {α : Type} (l : List α) (a : α) :
    (l ++ [a]).getLast? = some a := by
  rw [List.getLast?_concat]

/-! Claim theorems. -/

/-- Claim C1, counterexample: with a sender-reported descriptor present and an
ohz match discovered, the candidate list is [ohz, descriptor, descriptor]; the
synthesized default direct-multicast candidate is not its last element — it
does not occur in the list at all. -/
theorem c1_candidate_order_cex :
    resolve_candidates (some "ohSongcast://LEADER") "UDN-1" none none
        (some "ohz://10.0.0.1:51972/S") =
      ["ohz://10.0.0.1:51972/S", "ohSongcast://LEADER", "ohSongcast://LEADER"] ∧
    (resolve_candidates (some "ohSongcast://LEADER") "UDN-1" none none
        (some "ohz://10.0.0.1:51972/S")).getLast? ≠ some (default_ohz "UDN-1") ∧
    default_ohz "UDN-1" ∉
      resolve_candidates (some "ohSongcast://LEADER") "UDN-1" none none
        (some "ohz://10.0.0.1:51972/S") := by
  decide

/-- Claim C1, amended: a direct-multicast (ohz) match found via the
visible-senders query is always first; the sender's self-reported descriptor
follows it (appearing twice, once from each append in the source); the
synthesized default direct-multicast candidate is present only when no ohz
match was found, and it is then placed first, not last; when the sender's own
descriptor is unavailable the synthesized ohSongcast descriptor is the final
fallback element. -/
theorem c1_candidate_order :
    (∀ (s udn : String) (nm rm : Option String) (o : String),
      s ≠ "" → o ≠ "" →
      resolve_candidates (some s) udn nm rm (some o) = [o, s, s]) ∧
    (∀ (s udn : String) (nm rm : Option String),
      s ≠ "" → udn ≠ "" →
      resolve_candidates (some s) udn nm rm none = [default_ohz udn, s, s]) ∧
    (∀ (udn : String) (nm rm : Option String) (o : String),
      o ≠ "" →
      resolve_candidates none udn nm rm (some o) = [o, build_sender_uri udn nm rm]) ∧
    (∀ (udn : String) (nm rm : Option String),
      udn ≠ "" →
      resolve_candidates none udn nm rm none =
        [default_ohz udn, build_sender_uri udn nm rm]) := by
  refine ⟨?_, ?_, ?_, ?_⟩
  · intro s udn nm rm o hs ho
    simp [resolve_candidates, hs, ho]
  · intro s udn nm rm hs hu
    simp [resolve_candidates, hs, hu]
  · intro udn nm rm o ho
    simp [resolve_candidates, ho]
  · intro udn nm rm hu
    simp [resolve_candidates, hu]

/-- Claim C1, witness for the amended theorem at a concrete input. -/
theorem c1_candidate_order_witness :
    resolve_candidates (some "ohSongcast://L") "U" none none (some "ohz://a") =
      ["ohz://a", "ohSongcast://L", "ohSongcast://L"] :=
  c1_candidate_order.1 "ohSongcast://L" "U" none none "ohz://a"
    (by decide) (by decide)

/-- Claim C2: the grouped derivation is a pure function of the pair
(sender-reference scheme, transport state): true iff the lowercased scheme is
"ohz" or the lowercased transport state is one of playing/buffering/connecting;
in particular (ohz, idle) is true, (descriptor, Playing) is true and
(descriptor, idle) is false. -/
theorem c2_grouped_pure :
    (∀ scheme transportState : String,
      is_grouped scheme transportState =
        (decide (py_lower scheme = "ohz") ||
          decide (py_lower transportState ∈
            (["playing", "buffering", "connecting"] : List String)))) ∧
    is_grouped "ohz" "idle" = true ∧
    is_grouped "ohSongcast" "Playing" = true ∧
    is_grouped "ohSongcast" "idle" = false := by
  refine ⟨?_, by decide, by decide, by decide⟩
  intro scheme transportState
  unfold is_grouped
  by_cases h : py_lower scheme = "ohz" <;> simp [h]

/-- Claim C3, counterexample: a started, pending assertion whose deadline
(start 0, window 5) has passed at time 6 is reported expired, yet a matching
notification arriving at time 6 still transitions it to met — after which it
is no longer reported expired. The expired status is therefore not terminal. -/
theorem c3_assertion_monotone_cex :
    StateAssertion.is_expired assertion_c3 6 = true ∧
    ((StateAssertion.check assertion_c3 6 "D2" "TransportState" "Playing").1).met = true ∧
    StateAssertion.is_expired
      ((StateAssertion.check assertion_c3 6 "D2" "TransportState" "Playing").1) 6 = false := by
  decide

/-- Claim C3, amended: once met, an assertion is terminal — further matching
notifications are no-ops (check returns the assertion unchanged with False)
and it is never reported expired. Expiry, however, is a derived status rather
than a stored transition: check never consults the deadline, so its met result
depends only on the (device, variable, value) triple, and a pending assertion
whose deadline has passed still transitions to met on a matching notification. -/
theorem c3_assertion_monotone :
    (∀ (a : StateAssertion) (now : Nat) (d v value : String),
      a.met = true → StateAssertion.check a now d v value = (a, false)) ∧
    (∀ (a : StateAssertion) (now : Nat),
      a.met = true → StateAssertion.is_expired a now = false) ∧
    (∀ (a : StateAssertion) (now : Nat) (d v value : String),
      ((StateAssertion.check a now d v value).1).met =
        (a.met ||
          decide (d = a.device_id ∧ v = a.var ∧ value = a.expected_value))) := by
  refine ⟨?_, ?_, ?_⟩
  · intro a now d v value h
    simp [StateAssertion.check, h]
  · intro a now h
    unfold StateAssertion.is_expired
    cases a.start_time <;> simp [h]
  · intro a now d v value
    unfold StateAssertion.check
    by_cases hm : a.met
    · simp [hm]
    · simp only [Bool.not_eq_true] at hm
      by_cases hc : d = a.device_id ∧ v = a.var ∧ value = a.expected_value
      · simp [hm, hc]
      · simp [hm, hc]

/-- Claim C3, witness for the amended theorem: an already-met assertion is
untouched by a further matching notification. -/
theorem c3_assertion_monotone_witness :
    StateAssertion.check
        { device_id := "D2", var := "TransportState", expected_value := "Playing",
          within_seconds := 5, start_time := some 0, met := true } 9
        "D2" "TransportState" "Playing" =
      ({ device_id := "D2", var := "TransportState", expected_value := "Playing",
         within_seconds := 5, start_time := some 0, met := true }, false) :=
  c3_assertion_monotone.1
    { device_id := "D2", var := "TransportState", expected_value := "Playing",
      within_seconds := 5, start_time := some 0, met := true }
    9 "D2" "TransportState" "Playing" rfl

/-- Claim C7: the candidate resolver is total (every failed step is modelled
by a `none`/empty input and simply contributes nothing), and once the sender's
identifier is known the produced candidate list is non-empty; even with the
sender-descriptor query and the visible-senders discovery both failing, the
list still contains the synthesized default followed by the built descriptor. -/
theorem c7_resolver_total :
    (∀ (su : Option String) (udn : String) (nm rm : Option String) (o : Option String),
      udn ≠ "" → resolve_candidates su udn nm rm o ≠ []) ∧
    (∀ (udn : String) (nm rm : Option String),
      udn ≠ "" →
      resolve_candidates none udn nm rm none =
        [default_ohz udn, build_sender_uri udn nm rm]) := by
  constructor
  · intro su udn nm rm o hu
    unfold resolve_candidates
    rcases su with - | u <;> rcases o with - | v <;>
      simp [hu] <;> split <;> simp [hu] <;> split <;> simp
  · intro udn nm rm hu
    simp [resolve_candidates, hu]

/-- Claim C7, witness: total failure of steps 1 and 2 still yields candidates. -/
theorem c7_resolver_total_witness :
    resolve_candidates none "UDN-1" none none none ≠ [] :=
  c7_resolver_total.1 none "UDN-1" none none none (by decide)

/-- Claim C4: for every processed EVENT line, each recognised variable whose
captured value differs from the snapshot yields the snapshot update plus
exactly one change notification carrying (variable, oldValue, newValue,
sequence), an equal value yields no update and no notification, and an absent
variable leaves everything untouched; on the spec's example line the monitor
emits exactly two notifications from a differing snapshot and zero from an
unchanged one. -/
theorem c4_event_diffing :
    (∀ (st : Snapshot) (line seq rest : String),
      parse_event_line line = some (seq, rest) →
      ∀ name ∈ recognized_vars,
        (∀ nv, capture_var name rest = some nv →
          ((snapget st name = some nv →
              snapget (process_event st line).1 name = some nv ∧
              changes_for name (process_event st line).2 = []) ∧
           (snapget st name ≠ some nv →
              snapget (process_event st line).1 name = some nv ∧
              changes_for name (process_event st line).2 =
                [{ seq := seq, var := name, oldValue := snapget st name,
                   newValue := nv }]))) ∧
        (capture_var name rest = none →
          snapget (process_event st line).1 name = snapget st name ∧
          changes_for name (process_event st line).2 = [])) ∧
    (process_event snap_differ event_line_c4).2.length = 2 ∧
    (process_event snap_same event_line_c4).2.length = 0 := by
  refine ⟨?_, by decide, by decide⟩
  intro st line seq rest h name hn
  have hf := process_event_field h st hn
  constructor
  · intro nv hc
    have hstep : step_var seq name (snapget st name) rest =
        (if snapget st name = some nv then (snapget st name, [])
         else (some nv,
            [{ seq := seq, var := name, oldValue := snapget st name, newValue := nv }])) := by
      unfold step_var
      rw [hc]
    constructor
    · intro he
      refine ⟨?_, ?_⟩
      · rw [hf.1, hstep, if_pos he]; exact he
      · rw [hf.2, hstep, if_pos he]
    · intro he
      refine ⟨?_, ?_⟩
      · rw [hf.1, hstep, if_neg he]
      · rw [hf.2, hstep, if_neg he]
  · intro hc
    have hstep : step_var seq name (snapget st name) rest = (snapget st name, []) := by
      unfold step_var
      rw [hc]
    exact ⟨by rw [hf.1, hstep], by rw [hf.2, hstep]⟩

/-- Claim C4, witness at the spec's example line. -/
theorem c4_event_diffing_witness :
    snapget (process_event snap_differ event_line_c4).1 "TransportState" = some "Playing" ∧
    changes_for "TransportState" (process_event snap_differ event_line_c4).2 =
      [{ seq := "3", var := "TransportState", oldValue := some "Stopped",
         newValue := "Playing" }] :=
  ((c4_event_diffing.1 snap_differ event_line_c4 "3"
      "TransportState \"Playing\" Status \"Yes\"" (by decide) "TransportState"
      (by decide)).1 "Playing" (by decide)).2 (by decide)

/-- Claim C5: per candidate the join polls at most 8 times; the whole
candidate loop is bounded by 8 polls times the candidate count (so the join
terminates with exactly one outcome, accepted-or-not, for every oracle); and
the loop stops trying further candidates as soon as one is accepted — the
remaining candidates are not examined at all. -/
theorem c5_join_bounded :
    (∀ (oracle : Nat → PollResult) (cand : String) (i : Nat),
      (poll_candidate oracle cand i 8).2 ≤ 8) ∧
    (∀ (oracle : String → Nat → PollResult) (cands : List String),
      (try_candidates oracle cands).2.1 ≤ 8 * cands.length) ∧
    (∀ (oracle : String → Nat → PollResult) (c : String) (rest : List String),
      (poll_candidate (oracle c) c 0 8).1 = true →
      try_candidates oracle (c :: rest) =
        (some c, (poll_candidate (oracle c) c 0 8).2, [c])) ∧
    (∀ (ra : Bool) (su : Option String) (udn : String) (nm rm : Option String)
        (o : Option String) (oracle : String → Nat → PollResult) (fb : Bool),
      (receiver_join ra su udn nm rm o oracle fb).polls ≤
        8 * (resolve_candidates su udn nm rm o).length) := by
  refine ⟨?_, ?_, ?_, ?_⟩
  · intro oracle cand i
    exact poll_candidate_le oracle cand 8 i
  · intro oracle cands
    exact try_candidates_le oracle cands
  · intro oracle c rest h
    exact try_candidates_cons_acc rest h
  · intro ra su udn nm rm o oracle fb
    cases ra
    · simp [receiver_join]
    · simp only [receiver_join, if_true]
      exact try_candidates_le oracle _

/-- Claim C5, witness: with an oracle that reports grouped immediately, the
first candidate is accepted and the second is never tried. -/
theorem c5_join_bounded_witness :
    try_candidates (fun _ _ => PollResult.ok "Playing" true)
        ["ohz://a", "ohSongcast://b"] =
      (some "ohz://a",
        (poll_candidate ((fun _ _ => PollResult.ok "Playing" true) "ohz://a")
          "ohz://a" 0 8).2,
        ["ohz://a"]) :=
  c5_join_bounded.2.2.1 (fun _ _ => PollResult.ok "Playing" true)
    "ohz://a" ["ohSongcast://b"] (by decide)

/-- Claim C6, counterexample: even when the very first candidate is accepted
(so no candidate failed), the low-level SOAP application of the synthesized
default candidate is still performed — it is not restricted to the
all-candidates-failed case. -/
theorem c6_fallback_cex :
    (receiver_join true none "UDN-1" none none (some "ohz://a")
        (fun _ _ => PollResult.ok "Playing" true) true).accepted = some "ohz://a" ∧
    JoinAction.soapFallback (default_ohz "UDN-1") ∈
      (receiver_join true none "UDN-1" none none (some "ohz://a")
        (fun _ _ => PollResult.ok "Playing" true) true).actions := by
  decide

/-- Claim C6, amended: whenever the Receiver service resolved, the direct SOAP
application of the synthesized default candidate is performed unconditionally
as the last action after the candidate loop — whether or not a candidate was
accepted — and its outcome changes nothing: the join result is identical for
any fallback outcome, and the returned value stays True. -/
theorem c6_fallback_unconditional :
    ∀ (su : Option String) (udn : String) (nm rm : Option String)
      (o : Option String) (oracle : String → Nat → PollResult) (fb : Bool),
      (receiver_join true su udn nm rm o oracle fb).actions.getLast? =
        some (JoinAction.soapFallback (default_ohz udn)) ∧
      (∀ fb2, receiver_join true su udn nm rm o oracle fb =
        receiver_join true su udn nm rm o oracle fb2) ∧
      (receiver_join true su udn nm rm o oracle fb).joined = true := by
  intro su udn nm rm o oracle fb
  refine ⟨?_, fun fb2 => rfl, rfl⟩
  show ((try_candidates oracle (resolve_candidates su udn nm rm o)).2.2.map
      JoinAction.tryCandidate ++
      [JoinAction.soapFallback (default_ohz udn)]).getLast? =
    some (JoinAction.soapFallback (default_ohz udn))
  exact getLast_append_single _ _

/-- Claim C8: `_receiver_join` returns True whenever the Receiver service is
resolvable, independent of whether any candidate was accepted (there is an
oracle under which every poll fails and the acceptance stays `none`, yet the
returned value is True); it returns False when the service is absent; and the
orchestrator's running verdict ignores the joined value entirely — it is
updated only from the separate `_is_grouped` verification. -/
theorem c8_join_result_decoupled :
    (∀ (su : Option String) (udn : String) (nm rm : Option String)
        (o : Option String) (oracle : String → Nat → PollResult) (fb : Bool),
      (receiver_join true su udn nm rm o oracle fb).joined = true) ∧
    (∀ (su : Option String) (udn : String) (nm rm : Option String)
        (o : Option String) (oracle : String → Nat → PollResult) (fb : Bool),
      (receiver_join false su udn nm rm o oracle fb).joined = false) ∧
    (∀ all_ok j1 j2 g : Bool,
      follower_verdict all_ok j1 g = follower_verdict all_ok j2 g) ∧
    (∃ (su : Option String) (udn : String) (nm rm : Option String)
        (o : Option String) (oracle : String → Nat → PollResult) (fb : Bool),
      (receiver_join true su udn nm rm o oracle fb).accepted = none ∧
      (receiver_join true su udn nm rm o oracle fb).joined = true) := by
  refine ⟨fun _ _ _ _ _ _ _ => rfl, fun _ _ _ _ _ _ _ => rfl, fun _ _ _ _ => rfl,
    none, "U", none, none, none, fun _ _ => PollResult.err, true, by decide, rfl⟩

/-- Claim C9: an assertion can become met only through an event that changes
its variable's snapshot value. The initial subscription parse
(`parse_event_buffer`) touches no assertion, and events that re-report the
snapshot value emit no change and hence trigger no check; so an assertion
whose expected value already holds in the initial snapshot, and whose variable
is never reported with a different value afterwards, is never marked met. -/
theorem c9_seed_never_met (d : String) (buffer : String)
    (evs : List (Nat × String)) (asl : List StateAssertion)
    (a : StateAssertion) (i : Nat)
    (hmet : a.met = false)
    (hvar : a.var ∈ recognized_vars)
    (hsnap : snapget (parse_event_buffer buffer) a.var = some a.expected_value)
    (hpres : ∀ p ∈ evs, event_preserves a.var a.expected_value p.2 = true)
    (hget : asl.get? i = some a) :
    (run_monitor d (parse_event_buffer buffer) asl evs).2.get? i =
      some (run_assertion d (parse_event_buffer buffer) a evs) ∧
    (run_assertion d (parse_event_buffer buffer) a evs).met = false := by
  constructor
  · rw [run_monitor_map]
    rw [List.get?_map, hget]
    rfl
  · exact run_assertion_never_met d evs (parse_event_buffer buffer) a
      hmet hvar hsnap hpres

/-- Claim C9, witness: the expected value holds at subscription time and the
stream only re-reports it (plus an unrelated change), so the assertion ends
the run unmet. -/
theorem c9_seed_never_met_witness :
    (run_monitor "D2" (parse_event_buffer buf_c9) [assertion_c9] evs_c9).2.get? 0 =
      some (run_assertion "D2" (parse_event_buffer buf_c9) assertion_c9 evs_c9) ∧
    (run_assertion "D2" (parse_event_buffer buf_c9) assertion_c9 evs_c9).met = false :=
  c9_seed_never_met "D2" buf_c9 evs_c9 [assertion_c9] assertion_c9 0
    (by decide) (by decide) (by decide) (by decide) rfl

/-- Claim C10: `query_receiver_state` is total — a failed connection/read
(`none` input, covering every caught exception path) yields `none` rather than
an error; a dictionary is returned only when at least one recognised variable
was parsed from an EVENT line; an empty parse also yields `none`. -/
theorem c10_query_total :
    query_receiver_state none = none ∧
    (∀ (buffer : String) (st : Snapshot),
      query_receiver_state (some buffer) = some st →
      (st.TransportState ≠ none ∨ st.Sender ≠ none ∨
        st.Status ≠ none ∨ st.ProtocolInfo ≠ none)) ∧
    (∀ buffer : String,
      parse_event_buffer buffer = ({} : Snapshot) →
      query_receiver_state (some buffer) = none) := by
  refine ⟨rfl, ?_, ?_⟩
  · intro buffer st h
    simp only [query_receiver_state] at h
    by_cases he : parse_event_buffer buffer = ({} : Snapshot)
    · rw [if_pos he] at h
      exact absurd h (by simp)
    · rw [if_neg he] at h
      have hst : st = parse_event_buffer buffer := (Option.some.inj h).symm
      subst hst
      by_contra hall
      push_neg at hall
      obtain ⟨h1, h2, h3, h4⟩ := hall
      apply he
      calc parse_event_buffer buffer
          = { TransportState := (parse_event_buffer buffer).TransportState,
              Sender := (parse_event_buffer buffer).Sender,
              Status := (parse_event_buffer buffer).Status,
              ProtocolInfo := (parse_event_buffer buffer).ProtocolInfo } := rfl
        _ = ({} : Snapshot) := by rw [h1, h2, h3, h4]
  · intro buffer h
    simp [query_receiver_state, h]

/-- Claim C10, witness: a buffer with one recognised variable yields a state
with at least one field populated. -/
theorem c10_query_total_witness :
    ({ TransportState := some "Stopped" } : Snapshot).TransportState ≠ none ∨
    ({ TransportState := some "Stopped" } : Snapshot).Sender ≠ none ∨
    ({ TransportState := some "Stopped" } : Snapshot).Status ≠ none ∨
    ({ TransportState := some "Stopped" } : Snapshot).ProtocolInfo ≠ none :=
  c10_query_total.2.1 "EVENT 0 Ds/Receiver TransportState \"Stopped\""
    { TransportState := some "Stopped" } (by decide)
